import Mathlib

/-!
Verification of the cl::CommandQueue / cl::Context frontend of the ANGLE
OpenCL object model (src/libANGLE/CLCommandQueue.cpp, src/libANGLE/CLContext.h).

The C++ code is shallowly embedded: machine integers become `Nat` (with the
64-bit width explicit where bit operations matter), pointers become `Nat`
identifiers (`Option Nat` where the null pointer is meaningful), output
pointers become `Option` values carrying the pointed-to contents, and byte
buffers become `List Nat` of byte values.  Each embedded function mirrors the
control flow of the corresponding C++ member function.
-/

namespace AngleCL

/-- OpenCL error code `CL_SUCCESS`. -/
def CL_SUCCESS : Int := 0

/-- OpenCL error code `CL_INVALID_VALUE`. -/
def CL_INVALID_VALUE : Int := -30

/-- OpenCL boolean `CL_FALSE` (a `cl_bool` is a `cl_uint`). -/
def CL_FALSE : Nat := 0

/-- OpenCL boolean `CL_TRUE`. -/
def CL_TRUE : Nat := 1

/-- OpenCL property bit `CL_QUEUE_ON_DEVICE_DEFAULT` (bit 3 of a
`cl_command_queue_properties` bitfield). -/
def CL_QUEUE_ON_DEVICE_DEFAULT : Nat := 8

/-- All-ones value of the 64-bit `cl_command_queue_properties` carrier type. -/
def UINT64_MASK : Nat := 2 ^ 64 - 1

/-- `BitField::set(bits)`: `mBits |= bits`. -/
def BitField.set (bits mask : Nat) : Nat := bits ||| mask

/-- `BitField::clear(bits)`: `mBits &= ~bits`, complement taken in the 64-bit
carrier type. -/
def BitField.clear (bits mask : Nat) : Nat := bits &&& (UINT64_MASK ^^^ mask)

/-- `BitField::isSet(bits)`: `(mBits & bits) == bits`. -/
def BitField.isSet (bits mask : Nat) : Bool := bits &&& mask == mask

/-- The `cl::Device` state relevant to this development: the non-owning
back-pointer `mDefaultCommandQueue` (`none` models the C++ null pointer,
`some q` models a pointer to the queue whose identity is `q`). -/
structure Device where
  mDefaultCommandQueue : Option Nat
deriving DecidableEq

/-- The `cl::CommandQueue` member state (CLCommandQueue.h):
`id` is the object's own address (`this`), `mContext` and `mDevice` are the
numeric values of the owning context and device pointers, `mProperties` is the
64-bit property bit-set, `mPropArray` the extended property array
(64-bit `cl_queue_properties` entries), `mSize` the 32-bit on-device queue
size, and `refCount` the reference count of the `Object` base. -/
structure CommandQueue where
  id : Nat
  mContext : Nat
  mDevice : Nat
  refCount : Nat
  mProperties : Nat
  mPropArray : List Nat
  mSize : Nat
deriving DecidableEq

/-- The `CommandQueueInfo` enum: the seven names recognized by
`CommandQueue::getInfo`, plus `InvalidEnum` standing for every value that
falls into the `default:` arm of the switch. -/
inductive CommandQueueInfo where
  | Context
  | Device
  | ReferenceCount
  | Properties
  | PropertiesArray
  | Size
  | DeviceDefault
  | InvalidEnum
deriving DecidableEq

/-- Little-endian byte encoding of a value in a `w`-byte machine integer,
as `std::memcpy` would read it. -/
def natToBytes : Nat → Nat → List Nat
  | 0, _ => []
  | w + 1, v => (v % 256) :: natToBytes w (v / 256)

theorem natToBytes_length (w v : Nat) : (natToBytes w v).length = w := by
  induction w generalizing v with
  | zero => rfl
  | succ w ih => simp [natToBytes, ih]

/-- Numeric value of a possibly-null pointer (the null pointer casts to 0). -/
def ptrVal : Option Nat → Nat
  | none => 0
  | some p => p

/-- The `switch (name)` of `CommandQueue::getInfo`: for a recognized name,
the bytes at `copyValue` (of length `copySize`); for the `default:` arm,
`none`.  Pointer-typed properties are 8 bytes, `cl_uint`s are 4 bytes, the
property bit-set is 8 bytes, and the extended property array is 8 bytes per
entry (`mPropArray.size() * sizeof(cl_queue_properties)`). -/
def commandQueueInfoBytes (q : CommandQueue) (dev : Device) :
    CommandQueueInfo → Option (List Nat)
  | CommandQueueInfo.Context => some (natToBytes 8 q.mContext)
  | CommandQueueInfo.Device => some (natToBytes 8 q.mDevice)
  | CommandQueueInfo.ReferenceCount => some (natToBytes 4 q.refCount)
  | CommandQueueInfo.Properties => some (natToBytes 8 q.mProperties)
  | CommandQueueInfo.PropertiesArray => some (q.mPropArray.flatMap (natToBytes 8))
  | CommandQueueInfo.Size => some (natToBytes 4 q.mSize)
  | CommandQueueInfo.DeviceDefault => some (natToBytes 8 (ptrVal dev.mDefaultCommandQueue))
  | CommandQueueInfo.InvalidEnum => none

/-- Result of a `getInfo` call: the returned `cl_int`, the contents of the
caller's value buffer after the call (`none` when the buffer pointer was
null), and the contents of `*valueSizeRet` after the call (`none` when that
pointer was null). -/
structure GetInfoResult where
  code : Int
  value : Option (List Nat)
  valueSizeRet : Option Nat
deriving DecidableEq

/-- `CommandQueue::getInfo(name, valueSize, value, valueSizeRet)`.
`value` carries the buffer contents before the call (`some buf`, where
`buf.length` is the allocation behind the pointer and `valueSize` the declared
capacity); `valueSizeRet` carries the pre-call contents of the size-output
location.  The `copyValue != nullptr` guard in the source only skips a
zero-length `memcpy` (it is null exactly when the property-array data pointer
is null, in which case `copySize` is 0), so the copy of `copySize` bytes
covers it. -/
def CommandQueue.getInfo (q : CommandQueue) (dev : Device) (name : CommandQueueInfo)
    (valueSize : Nat) (value : Option (List Nat)) (valueSizeRet : Option Nat) :
    GetInfoResult :=
  match commandQueueInfoBytes q dev name with
  | none => { code := CL_INVALID_VALUE, value := value, valueSizeRet := valueSizeRet }
  | some bytes =>
    let copySize := bytes.length
    match value with
    | some buf =>
      if valueSize < copySize then
        { code := CL_INVALID_VALUE, value := some buf, valueSizeRet := valueSizeRet }
      else
        { code := CL_SUCCESS
          value := some (bytes ++ buf.drop copySize)
          valueSizeRet := valueSizeRet.map fun _ => copySize }
    | none =>
      { code := CL_SUCCESS
        value := none
        valueSizeRet := valueSizeRet.map fun _ => copySize }

/-- `CommandQueue::setProperty(properties, enable, oldProperties)`.
`backendResult` is the `cl_int` returned by `mImpl->setProperty` (the backend
is an external collaborator; its answer is an input here).  `oldProperties`
carries the pre-call contents of the output location (`none` models a null
pointer).  Returns the `cl_int` result, the queue state after the call, and
the contents of `*oldProperties` after the call. -/
def CommandQueue.setProperty (q : CommandQueue) (properties : Nat) (enable : Nat)
    (backendResult : Int) (oldProperties : Option Nat) :
    Int × CommandQueue × Option Nat :=
  let oldOut := oldProperties.map fun _ => q.mProperties
  if backendResult = CL_SUCCESS then
    if enable = CL_FALSE then
      (backendResult, { q with mProperties := BitField.clear q.mProperties properties }, oldOut)
    else
      (backendResult, { q with mProperties := BitField.set q.mProperties properties }, oldOut)
  else
    (backendResult, q, oldOut)

/-- The legacy constructor
`CommandQueue::CommandQueue(context, device, properties, errorCode)`
(CLCommandQueue.cpp lines 134-143): member initialization only, empty body.
Returns the constructed queue state and the device state after construction.
`ctx`/`devId` are the numeric values of the context and device pointers,
`qid` the address of the object being constructed.  `mPropArray` and `mSize`
keep their in-class default values (empty array, size 0). -/
def CommandQueue.constructLegacy (ctx : Nat) (dev : Device) (devId : Nat) (qid : Nat)
    (properties : Nat) : CommandQueue × Device :=
  ({ id := qid, mContext := ctx, mDevice := devId, refCount := 1,
     mProperties := properties, mPropArray := [], mSize := 0 }, dev)

/-- The extended-property constructor
`CommandQueue::CommandQueue(context, device, propArray, properties, size,
errorCode)` (CLCommandQueue.cpp lines 145-163): member initialization, then
`if (mProperties.isSet(CL_QUEUE_ON_DEVICE_DEFAULT))
   mDevice->mDefaultCommandQueue = this;`. -/
def CommandQueue.constructWithProperties (ctx : Nat) (dev : Device) (devId : Nat)
    (qid : Nat) (propArray : List Nat) (properties : Nat) (size : Nat) :
    CommandQueue × Device :=
  let q : CommandQueue :=
    { id := qid, mContext := ctx, mDevice := devId, refCount := 1,
      mProperties := properties, mPropArray := propArray, mSize := size }
  if BitField.isSet q.mProperties CL_QUEUE_ON_DEVICE_DEFAULT then
    (q, { dev with mDefaultCommandQueue := some qid })
  else
    (q, dev)

/-- `CommandQueue::~CommandQueue()` (CLCommandQueue.cpp lines 19-25): clears
the device's default-queue back-pointer iff it points at this queue.  Returns
the device state after destruction. -/
def CommandQueue.destructor (dev : Device) (qid : Nat) : Device :=
  if dev.mDefaultCommandQueue = some qid then
    { dev with mDefaultCommandQueue := none }
  else
    dev

/-- The `cl::Context` state relevant to `release`: the owning command-queue
list `mCommandQueues`, each entry the identity of one queue. -/
structure ContextState where
  mCommandQueues : List Nat
deriving DecidableEq

/-- Modelled from the spec: `Object::removeRef` (the `Object` base class is
not among the given sources).  "decrements and returns whether the count
reached zero (signal-only — it does not perform destruction itself)".
Returns the new count and the boolean. -/
def Object.removeRef (refCount : Nat) : Nat × Bool :=
  (refCount - 1, refCount - 1 == 0)

/-- Modelled from the spec: `Context::destroyCommandQueue` (declared in
CLContext.h line 144; its body is not among the given sources).  "erases the
matching entry from the owning list by identity (pointer equality)". -/
def Context.destroyCommandQueue (ctx : ContextState) (qid : Nat) : ContextState :=
  { ctx with mCommandQueues := ctx.mCommandQueues.eraseP (fun p => p == qid) }

/-- `CommandQueue::release()` (CLCommandQueue.cpp lines 27-35):
`released = removeRef(); if (released) mContext->destroyCommandQueue(this);
return released;`.  Returns the boolean, the context state after the call,
and the queue state after the call. -/
def CommandQueue.release (ctx : ContextState) (q : CommandQueue) :
    Bool × ContextState × CommandQueue :=
  let rr := Object.removeRef q.refCount
  let q2 : CommandQueue := { q with refCount := rr.1 }
  if rr.2 then
    (rr.2, Context.destroyCommandQueue ctx q.id, q2)
  else
    (rr.2, ctx, q2)

/-- The per-device capability info consulted by the `Context` aggregate
queries (`cl::DeviceInfo`, reached through `ptr->getInfo()`): the `cl_bool`
image-support flag and the intermediate-language version string. -/
structure DeviceInfo where
  mImageSupport : Nat
  mIL_Version : String
deriving DecidableEq

/-- `Context::supportsImages()` (CLContext.h lines 186-191): `std::find_if`
over the device set for `mImageSupport == CL_TRUE`, compared against `end`. -/
def Context.supportsImages (mDevices : List DeviceInfo) : Bool :=
  mDevices.any fun d => d.mImageSupport == CL_TRUE

/-- `Context::supportsIL()` (CLContext.h lines 193-198): `std::find_if` over
the device set for `!mIL_Version.empty()`, compared against `end`. -/
def Context.supportsIL (mDevices : List DeviceInfo) : Bool :=
  mDevices.any fun d => !d.mIL_Version.isEmpty

/-! Concrete instances used by witnesses and counterexamples. -/

/-- A concrete command queue. -/
def sampleQueue : CommandQueue :=
  { id := 1, mContext := 2, mDevice := 3, refCount := 1,
    mProperties := 0, mPropArray := [], mSize := 0 }

/-- A concrete device with no recorded default queue. -/
def sampleDevice : Device := { mDefaultCommandQueue := none }

/-- A concrete device whose recorded default queue is queue 1. -/
def sampleDeviceDefault1 : Device := { mDefaultCommandQueue := some 1 }

/-! ## C1 -/

/-- C1, counterexample: with a recognized name (`Context`, canonical size 8),
a non-null value buffer of declared capacity 0 and a non-null `valueSizeRet`
location holding 99, `getInfo` returns `CL_INVALID_VALUE` and leaves
`*valueSizeRet` at 99 — the canonical size 8 is NOT written, contradicting
"regardless of whether the call returned an error for a too-small non-null
buffer". -/
theorem getInfo_sizeRet_not_written_on_small_buffer :
    (CommandQueue.getInfo sampleQueue sampleDevice CommandQueueInfo.Context
      0 (some []) (some 99)).code = CL_INVALID_VALUE ∧
    (CommandQueue.getInfo sampleQueue sampleDevice CommandQueueInfo.Context
      0 (some []) (some 99)).valueSizeRet = some 99 ∧
    (CommandQueue.getInfo sampleQueue sampleDevice CommandQueueInfo.Context
      0 (some []) (some 99)).valueSizeRet ≠ some 8 := by
  refine ⟨rfl, rfl, ?_⟩
  decide

/-- C1, amended: for every recognized property name with a non-null
`valueSizeRet`, the canonical size is written into `*valueSizeRet` whenever
the value buffer is null or its declared capacity is at least the canonical
size; in the early-return case of a too-small non-null buffer it is not
written. -/
theorem getInfo_writes_canonical_size (q : CommandQueue) (dev : Device)
    (name : CommandQueueInfo) (bytes : List Nat) (valueSize : Nat)
    (value : Option (List Nat)) (old : Nat)
    (hname : commandQueueInfoBytes q dev name = some bytes)
    (hok : value = none ∨ bytes.length ≤ valueSize) :
    (CommandQueue.getInfo q dev name valueSize value (some old)).valueSizeRet =
      some bytes.length := by
  unfold CommandQueue.getInfo
  rw [hname]
  cases value with
  | none => simp
  | some buf =>
    rcases hok with hnone | hle
    · exact absurd hnone (Option.some_ne_none buf)
    · simp [Nat.not_lt.mpr hle]

/-- C1, witness for the amended theorem: probing the `Properties` name with a
null buffer writes the canonical size 8. -/
theorem getInfo_writes_canonical_size_witness :
    (CommandQueue.getInfo sampleQueue sampleDevice CommandQueueInfo.Properties
      0 none (some 99)).valueSizeRet = some 8 := by
  have h := getInfo_writes_canonical_size sampleQueue sampleDevice
    CommandQueueInfo.Properties (natToBytes 8 sampleQueue.mProperties)
    0 none 99 rfl (Or.inl rfl)
  simpa [natToBytes_length] using h

/-! ## C2 -/

/-- C2: for a recognized property name and a non-null value buffer, a
declared capacity strictly below the canonical size yields `CL_INVALID_VALUE`
with the buffer and size location untouched, while a sufficient capacity
yields `CL_SUCCESS` with exactly the canonical number of bytes copied (the
first `copySize` bytes of the buffer replaced, the rest unchanged). -/
theorem getInfo_capacity_check (q : CommandQueue) (dev : Device)
    (name : CommandQueueInfo) (bytes buf : List Nat) (valueSize : Nat)
    (sizeRet : Option Nat)
    (hname : commandQueueInfoBytes q dev name = some bytes) :
    (valueSize < bytes.length →
      CommandQueue.getInfo q dev name valueSize (some buf) sizeRet =
        { code := CL_INVALID_VALUE, value := some buf, valueSizeRet := sizeRet }) ∧
    (bytes.length ≤ valueSize →
      (CommandQueue.getInfo q dev name valueSize (some buf) sizeRet).code =
          CL_SUCCESS ∧
      (CommandQueue.getInfo q dev name valueSize (some buf) sizeRet).value =
          some (bytes ++ buf.drop bytes.length)) := by
  unfold CommandQueue.getInfo
  rw [hname]
  constructor
  · intro hlt
    simp [hlt]
  · intro hle
    simp [Nat.not_lt.mpr hle]

/-- C2, witness: querying `Size` (canonical size 4) into a 2-byte buffer
fails and leaves the buffer bytes unchanged; into a 4-byte buffer it succeeds
and overwrites all 4 bytes. -/
theorem getInfo_capacity_check_witness :
    (CommandQueue.getInfo sampleQueue sampleDevice CommandQueueInfo.Size
        2 (some [7, 7, 7, 7]) none =
      { code := CL_INVALID_VALUE, value := some [7, 7, 7, 7],
        valueSizeRet := none }) ∧
    ((CommandQueue.getInfo sampleQueue sampleDevice CommandQueueInfo.Size
        4 (some [7, 7, 7, 7]) none).code = CL_SUCCESS ∧
     (CommandQueue.getInfo sampleQueue sampleDevice CommandQueueInfo.Size
        4 (some [7, 7, 7, 7]) none).value = some [0, 0, 0, 0]) := by
  constructor
  · exact (getInfo_capacity_check sampleQueue sampleDevice CommandQueueInfo.Size
      (natToBytes 4 sampleQueue.mSize) [7, 7, 7, 7] 2 none rfl).1 (by decide)
  · have h := (getInfo_capacity_check sampleQueue sampleDevice CommandQueueInfo.Size
      (natToBytes 4 sampleQueue.mSize) [7, 7, 7, 7] 4 none rfl).2 (by decide)
    exact ⟨h.1, by rw [h.2]; decide⟩

/-! ## C6 -/

/-- C6: for a property name outside the recognized set (the `default:` arm of
the switch), `getInfo` returns `CL_INVALID_VALUE` with the value buffer and
the `valueSizeRet` location both untouched, for every buffer shape. -/
theorem getInfo_unrecognized_name (q : CommandQueue) (dev : Device)
    (name : CommandQueueInfo) (valueSize : Nat) (value : Option (List Nat))
    (sizeRet : Option Nat)
    (hname : commandQueueInfoBytes q dev name = none) :
    CommandQueue.getInfo q dev name valueSize value sizeRet =
      { code := CL_INVALID_VALUE, value := value, valueSizeRet := sizeRet } := by
  unfold CommandQueue.getInfo
  rw [hname]

/-- C6, witness: an `InvalidEnum` query with a large non-null buffer and a
non-null size location changes neither and fails. -/
theorem getInfo_unrecognized_name_witness :
    CommandQueue.getInfo sampleQueue sampleDevice CommandQueueInfo.InvalidEnum
        16 (some [1, 2, 3]) (some 5) =
      { code := CL_INVALID_VALUE, value := some [1, 2, 3], valueSizeRet := some 5 } :=
  getInfo_unrecognized_name sampleQueue sampleDevice CommandQueueInfo.InvalidEnum
    16 (some [1, 2, 3]) (some 5) rfl

/-! ## C7 -/

/-- C7: for every recognized property name, a size probe with a null buffer
succeeds and reports a canonical size `S`, and a second call on unchanged
state with a non-null buffer of declared capacity exactly `S` succeeds and
copies exactly `S` bytes. -/
theorem getInfo_probe_then_use (q : CommandQueue) (dev : Device)
    (name : CommandQueueInfo) (bytes buf : List Nat) (old : Nat)
    (sizeRet : Option Nat)
    (hname : commandQueueInfoBytes q dev name = some bytes) :
    (CommandQueue.getInfo q dev name 0 none (some old)).code = CL_SUCCESS ∧
    ∃ S, (CommandQueue.getInfo q dev name 0 none (some old)).valueSizeRet = some S ∧
      (CommandQueue.getInfo q dev name S (some buf) sizeRet).code = CL_SUCCESS ∧
      (CommandQueue.getInfo q dev name S (some buf) sizeRet).value =
        some (bytes ++ buf.drop S) := by
  refine ⟨?_, bytes.length, ?_, ?_, ?_⟩
  · unfold CommandQueue.getInfo
    rw [hname]
  · unfold CommandQueue.getInfo
    rw [hname]
    simp
  · unfold CommandQueue.getInfo
    rw [hname]
    simp
  · unfold CommandQueue.getInfo
    rw [hname]
    simp

/-- C7, witness: probing `Device` reports 8, and an 8-byte buffer is then
accepted with all 8 bytes overwritten. -/
theorem getInfo_probe_then_use_witness :
    (CommandQueue.getInfo sampleQueue sampleDevice CommandQueueInfo.Device
        0 none (some 0)).code = CL_SUCCESS ∧
    ∃ S, (CommandQueue.getInfo sampleQueue sampleDevice CommandQueueInfo.Device
        0 none (some 0)).valueSizeRet = some S ∧
      (CommandQueue.getInfo sampleQueue sampleDevice CommandQueueInfo.Device
        S (some [9, 9, 9, 9, 9, 9, 9, 9]) none).code = CL_SUCCESS ∧
      (CommandQueue.getInfo sampleQueue sampleDevice CommandQueueInfo.Device
        S (some [9, 9, 9, 9, 9, 9, 9, 9]) none).value =
        some (natToBytes 8 3 ++ List.drop S [9, 9, 9, 9, 9, 9, 9, 9]) :=
  getInfo_probe_then_use sampleQueue sampleDevice CommandQueueInfo.Device
    (natToBytes 8 3) [9, 9, 9, 9, 9, 9, 9, 9] 0 none rfl

/-! ## C3 -/

/-- C3: `setProperty` writes the pre-change bit-set into `*oldProperties`
whenever that pointer is non-null, also when the backend rejects the change;
the stored bit-set is unchanged unless the backend returns `CL_SUCCESS`; on
success with `enable = CL_FALSE` every bit of the supplied mask is cleared
and every bit outside it kept, and on success with any other `enable` every
bit of the mask is set and every bit outside it kept — one combined update
over the whole mask. -/
theorem setProperty_old_and_commit (q : CommandQueue) (properties enable : Nat)
    (backendResult : Int) (oldPtr : Option Nat)
    (hq : q.mProperties < 2 ^ 64) (hp : properties < 2 ^ 64) :
    (CommandQueue.setProperty q properties enable backendResult oldPtr).2.2 =
        oldPtr.map (fun _ => q.mProperties) ∧
    (CommandQueue.setProperty q properties enable backendResult oldPtr).1 =
        backendResult ∧
    (backendResult ≠ CL_SUCCESS →
      (CommandQueue.setProperty q properties enable backendResult oldPtr).2.1 = q) ∧
    (backendResult = CL_SUCCESS → enable = CL_FALSE → ∀ i,
      ((CommandQueue.setProperty q properties enable backendResult
          oldPtr).2.1.mProperties).testBit i =
        (q.mProperties.testBit i && !properties.testBit i)) ∧
    (backendResult = CL_SUCCESS → enable ≠ CL_FALSE → ∀ i,
      ((CommandQueue.setProperty q properties enable backendResult
          oldPtr).2.1.mProperties).testBit i =
        (q.mProperties.testBit i || properties.testBit i)) := by
  refine ⟨?_, ?_, ?_, ?_, ?_⟩
  · unfold CommandQueue.setProperty
    split
    · split <;> rfl
    · rfl
  · unfold CommandQueue.setProperty
    split
    · split <;> rfl
    · rfl
  · intro hbr
    unfold CommandQueue.setProperty
    simp [hbr]
  · intro hbr hen i
    unfold CommandQueue.setProperty
    simp only [hbr, hen, if_pos rfl]
    show (BitField.clear q.mProperties properties).testBit i = _
    unfold BitField.clear UINT64_MASK
    rw [Nat.testBit_land, Nat.testBit_xor, Nat.testBit_two_pow_sub_one]
    by_cases hi : i < 64
    · simp [hi]
    · have h1 : q.mProperties.testBit i = false :=
        Nat.testBit_lt_two_pow (lt_of_lt_of_le hq
          (Nat.pow_le_pow_right (by norm_num) (Nat.le_of_not_lt hi)))
      have h2 : properties.testBit i = false :=
        Nat.testBit_lt_two_pow (lt_of_lt_of_le hp
          (Nat.pow_le_pow_right (by norm_num) (Nat.le_of_not_lt hi)))
      simp [hi, h1, h2]
  · intro hbr hen i
    unfold CommandQueue.setProperty
    simp only [hbr, if_pos rfl, if_neg hen]
    show (BitField.set q.mProperties properties).testBit i = _
    unfold BitField.set
    exact Nat.testBit_lor q.mProperties properties i

/-- C3, witness: with prior bit-set `0b101`, mask `0b011`, `enable` true and a
successful backend, the old value 5 is reported and the result is `0b111`;
bit checks at positions 0-2. -/
theorem setProperty_old_and_commit_witness :
    ((CommandQueue.setProperty { sampleQueue with mProperties := 5 } 3 1
        CL_SUCCESS (some 42)).2.2 =
      (some 42).map (fun _ => (5 : Nat))) ∧
    ((CommandQueue.setProperty { sampleQueue with mProperties := 5 } 3 1
        CL_SUCCESS (some 42)).2.1.mProperties.testBit 1 =
      ((5 : Nat).testBit 1 || (3 : Nat).testBit 1)) := by
  have h := setProperty_old_and_commit { sampleQueue with mProperties := 5 } 3 1
    CL_SUCCESS (some 42) (by norm_num) (by norm_num)
  exact ⟨h.1, h.2.2.2.2 rfl (by decide) 1⟩

/-! ## C4 -/

/-- C4: constructing two command queues Q1 then Q2 on the same device through
the extended-property constructor, both with `CL_QUEUE_ON_DEVICE_DEFAULT`
set, leaves the device's default-queue slot holding Q2 — the second
construction displaces the first unconditionally. -/
theorem construct_default_last_writer_wins (dev : Device)
    (ctx1 ctx2 devId q1 q2 props1 props2 size1 size2 : Nat)
    (arr1 arr2 : List Nat)
    (h1 : BitField.isSet props1 CL_QUEUE_ON_DEVICE_DEFAULT = true)
    (h2 : BitField.isSet props2 CL_QUEUE_ON_DEVICE_DEFAULT = true) :
    ((CommandQueue.constructWithProperties ctx1 dev devId q1 arr1 props1
        size1).2.mDefaultCommandQueue = some q1) ∧
    ((CommandQueue.constructWithProperties ctx2
        (CommandQueue.constructWithProperties ctx1 dev devId q1 arr1 props1
          size1).2
        devId q2 arr2 props2 size2).2.mDefaultCommandQueue = some q2) := by
  unfold CommandQueue.constructWithProperties
  simp [h1, h2]

/-- C4, witness: two queues with address 10 and 20 created with property
bit-set 8 on a fresh device; the slot ends at queue 20. -/
theorem construct_default_last_writer_wins_witness :
    ((CommandQueue.constructWithProperties 2 sampleDevice 3 10 [] 8
        0).2.mDefaultCommandQueue = some 10) ∧
    ((CommandQueue.constructWithProperties 2
        (CommandQueue.constructWithProperties 2 sampleDevice 3 10 [] 8 0).2
        3 20 [] 8 0).2.mDefaultCommandQueue = some 20) :=
  construct_default_last_writer_wins sampleDevice 2 2 3 10 20 8 8 0 0 [] []
    (by decide) (by decide)

/-! ## C5 -/

/-- C5: destroying the queue currently recorded as the device's default
clears the slot to null; destroying any queue that is not the recorded
default leaves the device state unchanged. -/
theorem destructor_clears_own_default (dev : Device) (qid : Nat) :
    (dev.mDefaultCommandQueue = some qid →
      (CommandQueue.destructor dev qid).mDefaultCommandQueue = none) ∧
    (dev.mDefaultCommandQueue ≠ some qid →
      CommandQueue.destructor dev qid = dev) := by
  constructor
  · intro h
    unfold CommandQueue.destructor
    simp [h]
  · intro h
    unfold CommandQueue.destructor
    simp [h]

/-- C5, witness: destroying queue 1 on a device whose default is queue 1
clears the slot; destroying queue 2 on that device changes nothing. -/
theorem destructor_clears_own_default_witness :
    ((CommandQueue.destructor sampleDeviceDefault1 1).mDefaultCommandQueue =
      none) ∧
    (CommandQueue.destructor sampleDeviceDefault1 2 = sampleDeviceDefault1) :=
  ⟨(destructor_clears_own_default sampleDeviceDefault1 1).1 rfl,
   (destructor_clears_own_default sampleDeviceDefault1 2).2 (by decide)⟩

/-! ## C10 -/

/-- C10: the legacy constructor never touches the device state, even when the
supplied bit-set has `CL_QUEUE_ON_DEVICE_DEFAULT` set; only the
extended-property constructor installs the new queue as the device's
default. -/
theorem constructLegacy_never_sets_default (dev : Device)
    (ctx devId qid props : Nat) (arr : List Nat) (size : Nat) :
    ((CommandQueue.constructLegacy ctx dev devId qid props).2 = dev) ∧
    (BitField.isSet props CL_QUEUE_ON_DEVICE_DEFAULT = true →
      (CommandQueue.constructWithProperties ctx dev devId qid arr props
        size).2.mDefaultCommandQueue = some qid) := by
  constructor
  · rfl
  · intro h
    unfold CommandQueue.constructWithProperties
    simp [h]

/-- C10, witness: with the default bit set (bit-set 8), the legacy
constructor leaves a fresh device untouched while the extended constructor
installs queue 10. -/
theorem constructLegacy_never_sets_default_witness :
    ((CommandQueue.constructLegacy 2 sampleDevice 3 10 8).2 = sampleDevice) ∧
    ((CommandQueue.constructWithProperties 2 sampleDevice 3 10 [] 8
        0).2.mDefaultCommandQueue = some 10) :=
  ⟨(constructLegacy_never_sets_default sampleDevice 2 3 10 8 [] 0).1,
   (constructLegacy_never_sets_default sampleDevice 2 3 10 8 [] 0).2 (by decide)⟩

/-! ## C8 -/

/-- C8: `release` returns exactly the boolean reported by `removeRef`; it
invokes `Context::destroyCommandQueue` on the owning context precisely when
that boolean is true (the count reached zero), and when it is false the
context's command-queue list is untouched. -/
theorem release_destroys_iff_zero (ctx : ContextState) (q : CommandQueue) :
    ((CommandQueue.release ctx q).1 = (Object.removeRef q.refCount).2) ∧
    ((Object.removeRef q.refCount).2 = true →
      (CommandQueue.release ctx q).2.1 = Context.destroyCommandQueue ctx q.id) ∧
    ((Object.removeRef q.refCount).2 = false →
      (CommandQueue.release ctx q).2.1 = ctx) := by
  refine ⟨?_, ?_, ?_⟩
  · unfold CommandQueue.release
    by_cases h : (Object.removeRef q.refCount).2 = true <;> simp [h]
  · intro h
    unfold CommandQueue.release
    simp [h]
  · intro h
    unfold CommandQueue.release
    simp [h]

/-- C8, witness: a queue with count 1 is destroyed (its entry erased from the
owning list), and a queue with count 2 leaves the list untouched. -/
theorem release_destroys_iff_zero_witness :
    ((CommandQueue.release { mCommandQueues := [1, 4] } sampleQueue).2.1 =
      Context.destroyCommandQueue { mCommandQueues := [1, 4] } 1) ∧
    ((CommandQueue.release { mCommandQueues := [1, 4] }
        { sampleQueue with refCount := 2 }).2.1 =
      { mCommandQueues := [1, 4] }) :=
  ⟨(release_destroys_iff_zero { mCommandQueues := [1, 4] } sampleQueue).2.1
      (by decide),
   (release_destroys_iff_zero { mCommandQueues := [1, 4] }
      { sampleQueue with refCount := 2 }).2.2 (by decide)⟩

/-! ## C9 -/

/-- C9: `supportsImages` is true iff some device of the context's device set
reports image support (`CL_TRUE`), and `supportsIL` is true iff some device
has a non-empty intermediate-language version string — existential scans over
the whole set. -/
theorem supports_queries_existential (mDevices : List DeviceInfo) :
    (Context.supportsImages mDevices = true ↔
      ∃ d ∈ mDevices, d.mImageSupport = CL_TRUE) ∧
    (Context.supportsIL mDevices = true ↔
      ∃ d ∈ mDevices, d.mIL_Version ≠ "") := by
  constructor
  · unfold Context.supportsImages
    rw [List.any_eq_true]
    constructor
    · rintro ⟨d, hd, h⟩
      exact ⟨d, hd, by simpa using h⟩
    · rintro ⟨d, hd, h⟩
      exact ⟨d, hd, by simpa using h⟩
  · unfold Context.supportsIL
    rw [List.any_eq_true]
    constructor
    · rintro ⟨d, hd, h⟩
      refine ⟨d, hd, fun he => ?_⟩
      rw [he] at h
      exact absurd h (by decide)
    · rintro ⟨d, hd, h⟩
      refine ⟨d, hd, ?_⟩
      cases hem : d.mIL_Version.isEmpty with
      | false => rfl
      | true => exact absurd ((String.isEmpty_iff d.mIL_Version).mp hem) h

/-- C9, witness: in a two-device set where only the second device has image
support and an IL version, both queries answer true. -/
theorem supports_queries_existential_witness :
    Context.supportsImages
      [{ mImageSupport := 0, mIL_Version := "" },
       { mImageSupport := 1, mIL_Version := "SPIR-V_1.2" }] = true ∧
    Context.supportsIL
      [{ mImageSupport := 0, mIL_Version := "" },
       { mImageSupport := 1, mIL_Version := "SPIR-V_1.2" }] = true :=
  ⟨(supports_queries_existential
      [{ mImageSupport := 0, mIL_Version := "" },
       { mImageSupport := 1, mIL_Version := "SPIR-V_1.2" }]).1.mpr
      ⟨{ mImageSupport := 1, mIL_Version := "SPIR-V_1.2" }, by simp, rfl⟩,
   (supports_queries_existential
      [{ mImageSupport := 0, mIL_Version := "" },
       { mImageSupport := 1, mIL_Version := "SPIR-V_1.2" }]).2.mpr
      ⟨{ mImageSupport := 1, mIL_Version := "SPIR-V_1.2" }, by simp, by decide⟩⟩

end AngleCL
